import Mathlib

/-!
Verification of `packages/valory/skills/apy_estimation/rounds.py` (the round
configuration of the APY-estimation ABCI application) against its
natural-language specification.

The file under `src/` is a consumer of the generic round engine
(`abstract_round_abci.base`): it defines the extended `PeriodState`, the
concrete `CollectObservationRound` and `TransformRound`, and the static
transition table of `APYEstimationAbciApp`.  The engine primitives it calls
(`collection_threshold_reached`, `collection`, `BasePeriodState.update`,
payload delivery) live outside `src/` and are modelled from the spec where
needed; each such definition carries a doc comment starting with
`Modelled from the spec:`.
-/

/-- Outcome events of rounds, as imported from
`price_estimation_abci.rounds.Event` and used throughout the transition
table of `APYEstimationAbciApp`. -/
inductive Event where
  | DONE
  | ROUND_TIMEOUT
  | NO_MAJORITY
  | FAST_FORWARD
  | NEGATIVE
  | NONE
  | VALIDATE_TIMEOUT
  | DEPLOY_TIMEOUT
  | RESET_TIMEOUT
  | FAILED
deriving DecidableEq, Repr, Fintype

/-- The round types that appear in `APYEstimationAbciApp.transition_function`,
one constructor per round class referenced in `rounds.py`. -/
inductive RoundId where
  | RegistrationRound
  | RandomnessStartupRound
  | SelectKeeperAStartupRound
  | DeploySafeRound
  | ValidateSafeRound
  | DeployOracleRound
  | SelectKeeperBStartupRound
  | ValidateOracleRound
  | RandomnessRound
  | SelectKeeperARound
  | CollectObservationRound
  | TransformRound
  | EstimateConsensusRound
  | TxHashRound
  | CollectSignatureRound
  | FinalizationRound
  | ValidateTransactionRound
  | SelectKeeperBRound
  | ResetRound
  | ResetAndPauseRound
deriving DecidableEq, Repr, Fintype

/-- Payload transaction-type tags (`payload.transaction_type`).  Only the
observation tag is exercised by the code in `src/`; the others stand for the
remaining payload kinds of the workflow. -/
inductive TransactionType where
  | observation
  | transformationTag
  | estimate
  | randomness
  | other
deriving DecidableEq, Repr

/-- An observation payload (`ObservationPayload`): sender identity, its
transaction-type tag, and the observation value read off by
`payload_attribute = "observation"`.  The business value itself is opaque to
the engine; we model it as an integer. -/
structure ObservationPayload where
  sender : String
  transactionType : TransactionType
  observation : Int
deriving DecidableEq, Repr

/-- The result type of the out-of-scope `transform` business function
(`apy_estimation.tools.transform`, a pandas DataFrame in the source).  The
engine only ever stores it; we model it as structured data. -/
abbrev Transformation := List Int

/-- The period state of the APY-estimation skill (`PeriodState.__init__`,
`rounds.py` lines 80-127): the fields of `PriceEstimationPeriodState`
forwarded to `super().__init__`, plus the two fields the subclass adds
(`_transformation` and `_participant_to_transformation`).  Mappings keyed by
participant are association lists; payload types of rounds other than the
observation round are opaque to this file and modelled as strings.  The
floating-point `estimate` fields are modelled as rationals. -/
structure PeriodState where
  participants : Option (List String) := none
  periodCount : Option Nat := none
  periodSetupParams : Option (List (String × String)) := none
  participantToRandomness : Option (List (String × String)) := none
  mostVotedRandomness : Option String := none
  participantToSelection : Option (List (String × String)) := none
  mostVotedKeeperAddress : Option String := none
  safeContractAddress : Option String := none
  oracleContractAddress : Option String := none
  participantToVotes : Option (List (String × String)) := none
  participantToObservations : Option (List (String × ObservationPayload)) := none
  participantToTransformation : Option (List (String × String)) := none
  participantToEstimate : Option (List (String × String)) := none
  transformation : Option Transformation := none
  estimate : Option Rat := none
  mostVotedEstimate : Option Rat := none
  participantToTxHash : Option (List (String × String)) := none
  mostVotedTxHash : Option String := none
  participantToSignature : Option (List (String × String)) := none
  finalTxHash : Option String := none
deriving DecidableEq, Repr

/-- Modelled from the spec: `BasePeriodState.update` (engine code outside
`src/`) "layers newly observed round outputs onto the fields of the prior
state, without mutating the prior state", "preserving all fields not touched
by the current round".  This is its specialization to the two keyword
arguments supplied by `CollectObservationRound.end_block`
(`participant_to_observations` and `transformation`). -/
def PeriodState.update_observations (s : PeriodState)
    (p2o : List (String × ObservationPayload)) (tr : Transformation) :
    PeriodState :=
  { s with participantToObservations := some p2o, transformation := some tr }

/-- Errors raised by round operations: payload validation errors of the
engine's `deliver_payload`, and the `NotImplementedError` raised by
`TransformRound.end_block`. -/
inductive RoundError where
  | invalidPayloadError
  | duplicateSenderError
  | notImplementedError
deriving DecidableEq, Repr

/-- A `CollectDifferentUntilThresholdRound` instance: the round's internal
collection keyed by sender, the configured consensus threshold, and the
period state that was active when the round began (`self._state`). -/
structure CollectRound where
  collection : List (String × ObservationPayload)
  consensusThreshold : Nat
  state : PeriodState
deriving DecidableEq, Repr

/-- Modelled from the spec: the engine's `collection_threshold_reached`
property — "quorum holds once the number of distinct senders having
submitted reaches a configured threshold".  The collection is keyed by
sender (one entry per sender, enforced by `deliver_payload`), so the entry
count is the number of distinct senders. -/
def CollectRound.collection_threshold_reached (r : CollectRound) : Bool :=
  r.consensusThreshold ≤ r.collection.length

/-- Modelled from the spec: the engine's `deliver_payload` — "fails with
`InvalidPayloadError` if `payload.transaction_type` ≠ the round's allowed
type; fails with `DuplicateSenderError` if a conflicting payload from the
same sender already exists; otherwise records the payload keyed by sender".
The allowed type is passed explicitly (the concrete round's
`allowed_tx_type`). -/
def CollectRound.deliver_payload (r : CollectRound)
    (allowedTxType : TransactionType) (p : ObservationPayload) :
    Except RoundError CollectRound :=
  if p.transactionType ≠ allowedTxType then
    Except.error RoundError.invalidPayloadError
  else if (r.collection.map Prod.fst).contains p.sender then
    Except.error RoundError.duplicateSenderError
  else
    Except.ok { r with collection := r.collection ++ [(p.sender, p)] }

/-- `CollectObservationRound.allowed_tx_type = ObservationPayload.transaction_type`. -/
def CollectObservationRound.allowed_tx_type : TransactionType :=
  TransactionType.observation

/-- `CollectObservationRound.end_block` (`rounds.py` lines 163-180): if the
collection threshold is reached, read the `observation` attribute off each
collected payload, run the business `transform` over them, layer
`participant_to_observations` (the collection) and `transformation` onto the
period state, and return the new state with `Event.DONE`; otherwise return
`None`.  The out-of-scope `transform` function is passed as an explicit
argument `tf`. -/
def CollectObservationRound.end_block (tf : List Int → Transformation)
    (r : CollectRound) : Option (PeriodState × Event) :=
  if r.collection_threshold_reached then
    let observations := r.collection.map fun kv => kv.2.observation
    let transformation := tf observations
    let state := r.state.update_observations r.collection transformation
    some (state, Event.DONE)
  else
    none

/-- `APYEstimationAbstractRound._return_no_majority_event` (`rounds.py`
lines 138-144): returns the (unchanged) period state together with
`Event.NO_MAJORITY`. -/
def return_no_majority_event (s : PeriodState) : PeriodState × Event :=
  (s, Event.NO_MAJORITY)

/-- `TransformRound.end_block` (`rounds.py` lines 193-195): unconditionally
raises `NotImplementedError`. -/
def TransformRound.end_block (_r : CollectRound) :
    Except RoundError (Option (PeriodState × Event)) :=
  Except.error RoundError.notImplementedError

/-- Association-list lookup used for the transition table. -/
def assocLookup {α β : Type} [DecidableEq α] : List (α × β) → α → Option β
  | [], _ => none
  | (k, v) :: rest, k2 => if k = k2 then some v else assocLookup rest k2

/-- `APYEstimationAbciApp.transition_function` (`rounds.py` lines 202-310),
transcribed entry by entry: for each round type, the mapping from emitted
event to next round type. -/
def transition_table : List (RoundId × List (Event × RoundId)) := [
  (RoundId.RegistrationRound, [
    (Event.DONE, RoundId.RandomnessStartupRound),
    (Event.FAST_FORWARD, RoundId.RandomnessRound)]),
  (RoundId.RandomnessStartupRound, [
    (Event.DONE, RoundId.SelectKeeperAStartupRound),
    (Event.ROUND_TIMEOUT, RoundId.RandomnessStartupRound),
    (Event.NO_MAJORITY, RoundId.RandomnessStartupRound)]),
  (RoundId.SelectKeeperAStartupRound, [
    (Event.DONE, RoundId.DeploySafeRound),
    (Event.ROUND_TIMEOUT, RoundId.RegistrationRound),
    (Event.NO_MAJORITY, RoundId.RegistrationRound)]),
  (RoundId.DeploySafeRound, [
    (Event.DONE, RoundId.ValidateSafeRound),
    (Event.DEPLOY_TIMEOUT, RoundId.SelectKeeperAStartupRound)]),
  (RoundId.ValidateSafeRound, [
    (Event.DONE, RoundId.DeployOracleRound),
    (Event.NEGATIVE, RoundId.RegistrationRound),
    (Event.NONE, RoundId.RegistrationRound),
    (Event.VALIDATE_TIMEOUT, RoundId.RegistrationRound),
    (Event.NO_MAJORITY, RoundId.RegistrationRound)]),
  (RoundId.DeployOracleRound, [
    (Event.DONE, RoundId.ValidateOracleRound),
    (Event.DEPLOY_TIMEOUT, RoundId.SelectKeeperBStartupRound)]),
  (RoundId.SelectKeeperBStartupRound, [
    (Event.DONE, RoundId.DeployOracleRound),
    (Event.ROUND_TIMEOUT, RoundId.RegistrationRound),
    (Event.NO_MAJORITY, RoundId.RegistrationRound)]),
  (RoundId.ValidateOracleRound, [
    (Event.DONE, RoundId.RandomnessRound),
    (Event.NEGATIVE, RoundId.RegistrationRound),
    (Event.NONE, RoundId.RegistrationRound),
    (Event.VALIDATE_TIMEOUT, RoundId.RegistrationRound),
    (Event.NO_MAJORITY, RoundId.RegistrationRound)]),
  (RoundId.RandomnessRound, [
    (Event.DONE, RoundId.SelectKeeperARound),
    (Event.ROUND_TIMEOUT, RoundId.ResetRound),
    (Event.NO_MAJORITY, RoundId.RandomnessRound)]),
  (RoundId.SelectKeeperARound, [
    (Event.DONE, RoundId.CollectObservationRound),
    (Event.ROUND_TIMEOUT, RoundId.ResetRound),
    (Event.NO_MAJORITY, RoundId.ResetRound)]),
  (RoundId.CollectObservationRound, [
    (Event.DONE, RoundId.TransformRound),
    (Event.ROUND_TIMEOUT, RoundId.ResetRound)]),
  (RoundId.TransformRound, [
    (Event.DONE, RoundId.EstimateConsensusRound),
    (Event.ROUND_TIMEOUT, RoundId.ResetRound)]),
  (RoundId.EstimateConsensusRound, [
    (Event.DONE, RoundId.TxHashRound),
    (Event.ROUND_TIMEOUT, RoundId.ResetRound),
    (Event.NO_MAJORITY, RoundId.ResetRound)]),
  (RoundId.TxHashRound, [
    (Event.DONE, RoundId.CollectSignatureRound),
    (Event.ROUND_TIMEOUT, RoundId.ResetRound),
    (Event.NO_MAJORITY, RoundId.ResetRound)]),
  (RoundId.CollectSignatureRound, [
    (Event.DONE, RoundId.FinalizationRound),
    (Event.ROUND_TIMEOUT, RoundId.ResetRound),
    (Event.NO_MAJORITY, RoundId.ResetRound)]),
  (RoundId.FinalizationRound, [
    (Event.DONE, RoundId.ValidateTransactionRound),
    (Event.ROUND_TIMEOUT, RoundId.SelectKeeperBRound),
    (Event.FAILED, RoundId.SelectKeeperBRound)]),
  (RoundId.ValidateTransactionRound, [
    (Event.DONE, RoundId.ResetAndPauseRound),
    (Event.NEGATIVE, RoundId.ResetRound),
    (Event.NONE, RoundId.ResetRound),
    (Event.VALIDATE_TIMEOUT, RoundId.ResetRound),
    (Event.NO_MAJORITY, RoundId.ValidateTransactionRound)]),
  (RoundId.SelectKeeperBRound, [
    (Event.DONE, RoundId.FinalizationRound),
    (Event.ROUND_TIMEOUT, RoundId.ResetRound),
    (Event.NO_MAJORITY, RoundId.ResetRound)]),
  (RoundId.ResetRound, [
    (Event.DONE, RoundId.RandomnessRound),
    (Event.ROUND_TIMEOUT, RoundId.RegistrationRound),
    (Event.NO_MAJORITY, RoundId.RegistrationRound)]),
  (RoundId.ResetAndPauseRound, [
    (Event.DONE, RoundId.RandomnessRound),
    (Event.RESET_TIMEOUT, RoundId.RegistrationRound),
    (Event.NO_MAJORITY, RoundId.RegistrationRound)])]

/-- `APYEstimationAbciApp.initial_round_cls = RegistrationRound`. -/
def initial_round_cls : RoundId := RoundId.RegistrationRound

/-- `APYEstimationAbciApp.event_to_timeout` (`rounds.py` lines 311-316):
the timeout duration (in seconds, modelled as a rational) per timeout
event. -/
def event_to_timeout : List (Event × Rat) := [
  (Event.ROUND_TIMEOUT, 30),
  (Event.VALIDATE_TIMEOUT, 30),
  (Event.DEPLOY_TIMEOUT, 30),
  (Event.RESET_TIMEOUT, 30)]

/-- The driver's transition lookup: `(current round type, event) → next
round type`, `none` when the table has no entry (the
`UnknownTransitionError` case). -/
def transition_function (r : RoundId) (e : Event) : Option RoundId :=
  match assocLookup transition_table r with
  | some entries => assocLookup entries e
  | none => none

/-- The round types that are keys of the transition table. -/
def table_keys : List RoundId := transition_table.map Prod.fst

/-- The four timeout-triggered events of `event_to_timeout`. -/
def timeout_events : List Event :=
  [Event.ROUND_TIMEOUT, Event.VALIDATE_TIMEOUT, Event.DEPLOY_TIMEOUT,
   Event.RESET_TIMEOUT]

/-- Modelled from the spec: the events each round's `end_block` can emit,
plus the timeout event applicable to the round.  `CollectObservationRound`
and `TransformRound` are taken from the source (`end_block` returns only
`Event.DONE`, respectively raises and emits nothing); the remaining rounds
are out-of-scope collaborators whose emitted events follow the spec's round
kinds: same-value threshold rounds emit `DONE`/`NO_MAJORITY`, voting
(validate) rounds emit `DONE`/`NEGATIVE`/`NONE`/`NO_MAJORITY`, keeper-send
(deploy) rounds emit `DONE`, the finalization round emits `DONE`/`FAILED`,
and registration emits `DONE`/`FAST_FORWARD`.  Applicable timeouts: deploy
rounds time out with `DEPLOY_TIMEOUT`, validate rounds with
`VALIDATE_TIMEOUT`, reset-and-pause with `RESET_TIMEOUT`, registration has
no timeout (it awaits all registrations indefinitely), and all other rounds
time out with `ROUND_TIMEOUT`. -/
def emittable_events : RoundId → List Event
  | RoundId.RegistrationRound => [Event.DONE, Event.FAST_FORWARD]
  | RoundId.RandomnessStartupRound =>
      [Event.DONE, Event.NO_MAJORITY, Event.ROUND_TIMEOUT]
  | RoundId.SelectKeeperAStartupRound =>
      [Event.DONE, Event.NO_MAJORITY, Event.ROUND_TIMEOUT]
  | RoundId.DeploySafeRound => [Event.DONE, Event.DEPLOY_TIMEOUT]
  | RoundId.ValidateSafeRound =>
      [Event.DONE, Event.NEGATIVE, Event.NONE, Event.NO_MAJORITY,
       Event.VALIDATE_TIMEOUT]
  | RoundId.DeployOracleRound => [Event.DONE, Event.DEPLOY_TIMEOUT]
  | RoundId.SelectKeeperBStartupRound =>
      [Event.DONE, Event.NO_MAJORITY, Event.ROUND_TIMEOUT]
  | RoundId.ValidateOracleRound =>
      [Event.DONE, Event.NEGATIVE, Event.NONE, Event.NO_MAJORITY,
       Event.VALIDATE_TIMEOUT]
  | RoundId.RandomnessRound =>
      [Event.DONE, Event.NO_MAJORITY, Event.ROUND_TIMEOUT]
  | RoundId.SelectKeeperARound =>
      [Event.DONE, Event.NO_MAJORITY, Event.ROUND_TIMEOUT]
  | RoundId.CollectObservationRound => [Event.DONE, Event.ROUND_TIMEOUT]
  | RoundId.TransformRound => [Event.ROUND_TIMEOUT]
  | RoundId.EstimateConsensusRound =>
      [Event.DONE, Event.NO_MAJORITY, Event.ROUND_TIMEOUT]
  | RoundId.TxHashRound =>
      [Event.DONE, Event.NO_MAJORITY, Event.ROUND_TIMEOUT]
  | RoundId.CollectSignatureRound =>
      [Event.DONE, Event.NO_MAJORITY, Event.ROUND_TIMEOUT]
  | RoundId.FinalizationRound =>
      [Event.DONE, Event.FAILED, Event.ROUND_TIMEOUT]
  | RoundId.ValidateTransactionRound =>
      [Event.DONE, Event.NEGATIVE, Event.NONE, Event.NO_MAJORITY,
       Event.VALIDATE_TIMEOUT]
  | RoundId.SelectKeeperBRound =>
      [Event.DONE, Event.NO_MAJORITY, Event.ROUND_TIMEOUT]
  | RoundId.ResetRound =>
      [Event.DONE, Event.NO_MAJORITY, Event.ROUND_TIMEOUT]
  | RoundId.ResetAndPauseRound =>
      [Event.DONE, Event.NO_MAJORITY, Event.RESET_TIMEOUT]

/-- The round types reachable in one table transition from a given round. -/
def step_targets (r : RoundId) : List RoundId :=
  match assocLookup transition_table r with
  | some entries => entries.map Prod.snd
  | none => []

/-- One breadth-first expansion of a set (as a deduplicated list) of round
types by the table's transitions. -/
def expand (l : List RoundId) : List RoundId :=
  (l ++ (l.map step_targets).flatten).dedup

/-- Iterated expansion: the rounds reachable from the given seed list in at
most `n` transitions. -/
def reach : Nat → List RoundId → List RoundId
  | 0, acc => acc
  | n + 1, acc => reach n (expand acc)

/-- A sample observation payload from sender `A` (value 5), used in concrete
instantiations. -/
def pA : ObservationPayload :=
  { sender := "A", transactionType := TransactionType.observation,
    observation := 5 }

/-- A below-threshold collect round: empty collection, threshold 1. -/
def c1_round_below : CollectRound :=
  { collection := [], consensusThreshold := 1, state := {} }

/-- An at-threshold collect round: one payload collected, threshold 1. -/
def c1_round_at : CollectRound :=
  { collection := [("A", pA)], consensusThreshold := 1, state := {} }

/-- The period state `CollectObservationRound.end_block` produces from
`c1_round_at` with the identity transform. -/
def c3_out : PeriodState :=
  { participantToObservations := some [("A", pA)], transformation := some [5] }

/-- The four observation payloads of the {A,B,C,D} quorum scenario. -/
def c7_pA : ObservationPayload :=
  { sender := "A", transactionType := TransactionType.observation,
    observation := 1 }

/-- Observation payload from sender `B` for the quorum scenario. -/
def c7_pB : ObservationPayload :=
  { sender := "B", transactionType := TransactionType.observation,
    observation := 2 }

/-- Observation payload from sender `C` for the quorum scenario. -/
def c7_pC : ObservationPayload :=
  { sender := "C", transactionType := TransactionType.observation,
    observation := 3 }

/-- The fresh collect round of the quorum scenario: participants
{A, B, C, D}, threshold 3, nothing collected yet. -/
def c7_round : CollectRound :=
  { collection := [], consensusThreshold := 3,
    state := { participants := some ["A", "B", "C", "D"] } }

/-- The round after delivering the three distinct payloads from A, B and C
through `deliver_payload`. -/
def c7_delivered : Except RoundError CollectRound :=
  (c7_round.deliver_payload CollectObservationRound.allowed_tx_type c7_pA).bind
    fun r1 =>
      (r1.deliver_payload CollectObservationRound.allowed_tx_type c7_pB).bind
        fun r2 =>
          r2.deliver_payload CollectObservationRound.allowed_tx_type c7_pC

/-- The `end_block` output on the third delivery of the quorum scenario
(with the identity transform standing in for the business `transform`). -/
def c7_result : Option (PeriodState × Event) :=
  match c7_delivered with
  | Except.ok r => CollectObservationRound.end_block (fun l => l) r
  | Except.error _ => none

/-- C1: `CollectObservationRound.end_block` returns `none` whenever the
number of collected payloads is below the configured threshold, and once the
threshold of distinct senders is reached it returns `some` pair of a new
period state and `Event.DONE`. -/
theorem collect_observation_quorum (tf : List Int → Transformation)
    (r : CollectRound) (hnodup : (r.collection.map Prod.fst).Nodup) :
    (r.collection.length < r.consensusThreshold →
      CollectObservationRound.end_block tf r = none) ∧
    (r.consensusThreshold ≤ ((r.collection.map Prod.fst).dedup).length →
      ∃ s, CollectObservationRound.end_block tf r = some (s, Event.DONE)) := by
  constructor
  · intro h
    have hq : r.collection_threshold_reached = false := by
      simp only [CollectRound.collection_threshold_reached, decide_eq_false_iff_not]
      omega
    simp [CollectObservationRound.end_block, hq]
  · intro h
    rw [hnodup.dedup, List.length_map] at h
    have hq : r.collection_threshold_reached = true := by
      simpa [CollectRound.collection_threshold_reached] using h
    exact ⟨r.state.update_observations r.collection
        (tf (r.collection.map fun kv => kv.2.observation)),
      by simp [CollectObservationRound.end_block, hq]⟩

/-- Witness for C1: the empty collection with threshold 1 yields `none`, a
one-entry collection with threshold 1 yields a result. -/
theorem collect_observation_quorum_witness :
    CollectObservationRound.end_block (fun l => l) c1_round_below = none ∧
    (CollectObservationRound.end_block (fun l => l) c1_round_at).isSome = true := by
  constructor
  · exact (collect_observation_quorum (fun l => l) c1_round_below
      (by decide)).1 (by decide)
  · obtain ⟨s, hs⟩ := (collect_observation_quorum (fun l => l) c1_round_at
      (by decide)).2 (by decide)
    rw [hs]; rfl

/-- C2: `end_block` is deterministic and side-effect-free — its output is a
function of the round's collection, its configured threshold and the prior
period state alone, so two invocations on equal such data give equal
results. -/
theorem end_block_deterministic (tf : List Int → Transformation)
    (r1 r2 : CollectRound)
    (hc : r1.collection = r2.collection)
    (hs : r1.state = r2.state)
    (ht : r1.consensusThreshold = r2.consensusThreshold) :
    CollectObservationRound.end_block tf r1 =
      CollectObservationRound.end_block tf r2 := by
  cases r1
  cases r2
  simp_all

/-- Witness for C2 at a concrete round. -/
theorem end_block_deterministic_witness :
    CollectObservationRound.end_block (fun l => l) c1_round_at =
      CollectObservationRound.end_block (fun l => l) c1_round_at :=
  end_block_deterministic (fun l => l) c1_round_at c1_round_at rfl rfl rfl

/-- C3: when `end_block` reaches quorum, every field of the prior period
state other than the round's two declared outputs is carried over unchanged,
`participant_to_observations` is set to exactly the round's collection,
`transformation` to exactly the transform of the collected observations, and
the emitted event is `Event.DONE`. -/
theorem end_block_frame (tf : List Int → Transformation) (r : CollectRound)
    (s2 : PeriodState) (e : Event)
    (h : CollectObservationRound.end_block tf r = some (s2, e)) :
    s2.participants = r.state.participants ∧
    s2.periodCount = r.state.periodCount ∧
    s2.periodSetupParams = r.state.periodSetupParams ∧
    s2.participantToRandomness = r.state.participantToRandomness ∧
    s2.mostVotedRandomness = r.state.mostVotedRandomness ∧
    s2.participantToSelection = r.state.participantToSelection ∧
    s2.mostVotedKeeperAddress = r.state.mostVotedKeeperAddress ∧
    s2.safeContractAddress = r.state.safeContractAddress ∧
    s2.oracleContractAddress = r.state.oracleContractAddress ∧
    s2.participantToVotes = r.state.participantToVotes ∧
    s2.participantToTransformation = r.state.participantToTransformation ∧
    s2.participantToEstimate = r.state.participantToEstimate ∧
    s2.estimate = r.state.estimate ∧
    s2.mostVotedEstimate = r.state.mostVotedEstimate ∧
    s2.participantToTxHash = r.state.participantToTxHash ∧
    s2.mostVotedTxHash = r.state.mostVotedTxHash ∧
    s2.participantToSignature = r.state.participantToSignature ∧
    s2.finalTxHash = r.state.finalTxHash ∧
    s2.participantToObservations = some r.collection ∧
    s2.transformation = some (tf (r.collection.map fun kv => kv.2.observation)) ∧
    e = Event.DONE := by
  rw [CollectObservationRound.end_block] at h
  split at h
  · simp only [Option.some.injEq, Prod.mk.injEq] at h
    obtain ⟨hst, hev⟩ := h
    subst hst
    subst hev
    simp [PeriodState.update_observations]
  · exact Option.noConfusion h

/-- Witness for C3 at a concrete quorum-reaching round. -/
theorem end_block_frame_witness :
    c3_out.participants = c1_round_at.state.participants :=
  (end_block_frame (fun l => l) c1_round_at c3_out Event.DONE (by decide)).1

set_option maxRecDepth 10000 in
/-- C4: the transition table is total — for every round type and every event
that round can emit (its `end_block` events and its applicable timeout
events), the table has an entry, so the driver's `UnknownTransitionError`
branch is unreachable. -/
theorem transition_table_total :
    ∀ (r : RoundId) (e : Event), e ∈ emittable_events r →
      (transition_function r e).isSome = true := by
  decide

/-- Witness for C4 at the collect-observation round and `Event.DONE`. -/
theorem transition_table_total_witness :
    (transition_function RoundId.CollectObservationRound Event.DONE).isSome
      = true :=
  transition_table_total RoundId.CollectObservationRound Event.DONE (by decide)

/-- C5 counterexample: `RegistrationRound` is a key of the transition table
but has no entry for any of the four timeout events — the claim that every
round in the table has a timeout exit is false. -/
theorem registration_has_no_timeout_exit :
    RoundId.RegistrationRound ∈ table_keys ∧
    transition_function RoundId.RegistrationRound Event.ROUND_TIMEOUT = none ∧
    transition_function RoundId.RegistrationRound Event.VALIDATE_TIMEOUT = none ∧
    transition_function RoundId.RegistrationRound Event.DEPLOY_TIMEOUT = none ∧
    transition_function RoundId.RegistrationRound Event.RESET_TIMEOUT = none := by
  decide

set_option maxRecDepth 10000 in
/-- C5 amended: every round type in the table other than the initial
`RegistrationRound` has at least one timeout-triggered event mapping to a
next round. -/
theorem timeout_exit_except_registration :
    ∀ r : RoundId, r ∈ table_keys → r ≠ RoundId.RegistrationRound →
      (timeout_events.any fun e => (transition_function r e).isSome) = true := by
  decide

/-- Witness for the amended C5 at `RandomnessStartupRound`. -/
theorem timeout_exit_except_registration_witness :
    (timeout_events.any fun e =>
      (transition_function RoundId.RandomnessStartupRound e).isSome) = true :=
  timeout_exit_except_registration RoundId.RandomnessStartupRound
    (by decide) (by decide)

set_option maxRecDepth 100000 in
/-- C6: the transition table is closed (every target of a transition is a
key of the table), every round type in the table is reachable from the
initial round `RegistrationRound` via table transitions, and no round is
terminal (every key has at least one outgoing transition). -/
theorem transition_table_closed_and_reachable :
    (∀ (r : RoundId) (e : Event) (r2 : RoundId),
        transition_function r e = some r2 → r2 ∈ table_keys) ∧
    (∀ r : RoundId, r ∈ table_keys → r ∈ reach 20 [initial_round_cls]) ∧
    (∀ r : RoundId, r ∈ table_keys → step_targets r ≠ []) := by
  refine ⟨by decide, by decide, by decide⟩

/-- Witness for C6: closure at the registration transition and reachability
of the transform round. -/
theorem transition_table_closed_and_reachable_witness :
    RoundId.RandomnessStartupRound ∈ table_keys ∧
    RoundId.TransformRound ∈ reach 20 [initial_round_cls] :=
  ⟨transition_table_closed_and_reachable.1 RoundId.RegistrationRound
      Event.DONE RoundId.RandomnessStartupRound (by decide),
    transition_table_closed_and_reachable.2.1 RoundId.TransformRound
      (by decide)⟩

/-- C7: with participants {A,B,C,D} and threshold 3, after distinct payloads
from exactly A, B and C, `end_block` returns a new period state whose stored
collection has exactly 3 entries and no entry for D, together with
`Event.DONE`. -/
theorem collect_three_of_four_scenario :
    c7_result.map Prod.snd = some Event.DONE ∧
    c7_result.map (fun p => p.1.participantToObservations) =
      some (some [("A", c7_pA), ("B", c7_pB), ("C", c7_pC)]) ∧
    c7_result.map (fun p => (p.1.participantToObservations.getD []).length) =
      some 3 ∧
    c7_result.map (fun p =>
        ((p.1.participantToObservations.getD []).map Prod.fst).contains "D") =
      some false := by
  decide

/-- C8: a NO_MAJORITY outcome is not an exception and does not modify the
replicated state — `_return_no_majority_event` returns the prior period
state unchanged together with `Event.NO_MAJORITY`, and every round that can
emit `NO_MAJORITY` has a transition-table entry for it. -/
theorem no_majority_benign :
    (∀ s : PeriodState, return_no_majority_event s = (s, Event.NO_MAJORITY)) ∧
    (∀ r : RoundId, Event.NO_MAJORITY ∈ emittable_events r →
      (transition_function r Event.NO_MAJORITY).isSome = true) := by
  refine ⟨fun s => rfl, by decide⟩

/-- Witness for C8 at the empty period state and the randomness round. -/
theorem no_majority_benign_witness :
    return_no_majority_event {} = ({}, Event.NO_MAJORITY) ∧
    (transition_function RoundId.RandomnessRound Event.NO_MAJORITY).isSome
      = true :=
  ⟨no_majority_benign.1 {}, no_majority_benign.2 RoundId.RandomnessRound
    (by decide)⟩

/-- C9: `TransformRound.end_block` is an unimplemented placeholder — on
every round instance it raises `NotImplementedError`, so it never returns a
`(new period state, event)` result nor `None`. -/
theorem transform_end_block_unimplemented :
    ∀ r : CollectRound,
      TransformRound.end_block r =
        Except.error RoundError.notImplementedError :=
  fun _ => rfl
